import Mathlib

/-!
Verification development for the `aurora-biologic` pipeline registry and
command-relay subsystem.  The definitions below are a shallow embedding of
`src/aurora_biologic/biologic.py` and `src/aurora_biologic/cli/daemon.py`:
Python dicts become association lists with Python's insert-or-update
semantics, the COM driver (`self.eclab`) becomes an explicit record of pure
functions, raised exceptions become `Except` results, and every driver
invocation is additionally logged in a call trace so that "no hardware call
happens" claims can be stated.
-/

namespace AuroraBiologic

/-- A Python `dict` keyed by strings, as an association list in insertion
order.  Updating an existing key keeps its position; a new key is appended,
matching CPython dict semantics. -/
abbrev Dict (α : Type) := List (String × α)

/-- Python `d[k] = v`: update in place if the key exists, else append. -/
def dictInsert {α : Type} (k : String) (v : α) : Dict α → Dict α
  | [] => [(k, v)]
  | (k', v') :: rest => if k' = k then (k', v) :: rest else (k', v') :: dictInsert k v rest

/-- Python `d.get(k)`: the value at the first (hence unique, for real dicts)
matching key. -/
def dictLookup {α : Type} : Dict α → String → Option α
  | [], _ => none
  | (k', v) :: rest, k => if k' = k then some v else dictLookup rest k

/-- Python `list(d.keys())`. -/
def keys {α : Type} (d : Dict α) : List String := d.map Prod.fst

/-- Lookup in an integer-keyed Python dict (used for `serial_to_name` and the
per-field nested status-code tables). -/
def lookupInt {α : Type} : List (Int × α) → Int → Option α
  | [], _ => none
  | (k', v) :: rest, k => if k' = k then some v else lookupInt rest k

/-- One pipeline record, as built by `BiologicAPI.get_all_pipelines`
(biologic.py:134-142).  The Python dict literal has exactly these five keys;
in particular the source stores no `is_online` flag.  An unmapped device
name (Python stores the integer serial) is embedded as its decimal string,
which is also exactly what the f-string key derivation uses. -/
structure Pipeline where
  device_name : String
  device_index : Nat
  device_serial_number : Int
  channel_index : Nat
  channel_serial_number : Int
deriving DecidableEq, Repr

/-- One invocation of the EC-lab COM driver, recorded in traces. -/
inductive Call where
  | getDeviceSN (i : Nat)
  | selectChannel (d c : Nat)
  | loadSettings (d c : Nat) (path : String)
  | runChannel (d c : Nat) (path : String)
  | stopChannel (d c : Nat)
  | measureStatus (d c : Nat)
  | getExperimentInfos (d c : Nat)
deriving DecidableEq, Repr

/-- The tuple returned by `eclab.GetExperimentInfos` (biologic.py:254):
`start, end, folder, files, result`.  The test fixture returns `None` for
the folder on a failed channel, so the folder is optional. -/
structure ExpInfo where
  start : Option String
  endTime : Option String
  folder : Option String
  files : List (Option String)
  result : Int
deriving DecidableEq, Repr

/-- The EC-lab COM object (`self.eclab`) as a record of pure functions.
`getDeviceSN` returns `(sn, channel_sns, success)`. -/
structure ECLab where
  getDeviceSN : Nat → Int × List Int × Int
  selectChannel : Nat → Nat → Int
  loadSettings : Nat → Nat → String → Int
  runChannel : Nat → Nat → String → Int
  stopChannel : Nat → Nat → Int
  measureStatus : Nat → Nat → List Int
  getExperimentInfos : Nat → Nat → ExpInfo

/-- The exceptions raised by `biologic.py`, one constructor per `raise`
site relevant to the embedded operations: `get_pipeline`'s unknown-pipeline
`ValueError`, `load_settings`' `FileNotFoundError`, `select_pipeline`'s
"Failed to switch channel", and the "Failed to ..." `ValueError`s of
`load_settings`, `run_channel` and `stop`. -/
inductive BioError where
  | unknownPipeline (pid : String)
  | fileNotFound
  | switchFailed
  | loadFailed
  | runFailed
  | stopFailed
deriving DecidableEq, Repr

/-- A decoded status field value: either a human-readable name from the
nested code tables, or the raw number passed through. -/
inductive SVal where
  | str (s : String)
  | num (n : Int)
deriving DecidableEq, Repr

/-- Modelled from the spec: `aurora_biologic.dicts` (providing the globals
`status_codes` and `status_nested_codes`, biologic.py:18) is not part of the
sources under review; the spec only fixes that it is "static domain
metadata" — a positional field-name table plus small per-field enumerations.
The tables are therefore carried as an explicit parameter, and the theorems
below hold for every table. -/
structure StatusTables where
  status_codes : List String
  status_nested_codes : Nat → Option (List (Int × String))

/-- Embedding of `_human_readable_status` (biologic.py:61-66): truncate the
raw vector to the field table's length, then build
`{status_codes[i]: status_nested_codes[i].get(s, s) if i in status_nested_codes else s}`. -/
def human_readable_status (tables : StatusTables) (status : List Int) : Dict SVal :=
  ((status.take tables.status_codes.length).enum).foldl
    (fun d is =>
      dictInsert (tables.status_codes.getD is.1 "")
        (match tables.status_nested_codes is.1 with
         | some codes =>
           match lookupInt codes is.2 with
           | some name => SVal.str name
           | none => SVal.num is.2
         | none => SVal.num is.2)
        d)
    []

/-- Python falsy-check on the config lookup (biologic.py:126-128):
`serial_to_name.get(sn)` and, when missing (or falsy, e.g. the empty
string), fall back to the serial number itself as the name. -/
def resolve_device_name (cfg : List (Int × String)) (sn : Int) : String :=
  match lookupInt cfg sn with
  | some n => if n = "" then toString sn else n
  | none => toString sn

/-- The inner loop of `get_all_pipelines` (biologic.py:134-142):
`for j, channel_sn in enumerate(channel_sns)` insert
`devices[f"{device_name}-{j + 1}"] = {...}`. -/
def add_channels (name : String) (i : Nat) (sn : Int) :
    List Int → Nat → Dict Pipeline → Dict Pipeline
  | [], _, d => d
  | csn :: rest, j, d =>
    add_channels name i sn rest (j + 1)
      (dictInsert (name ++ "-" ++ toString (j + 1))
        { device_name := name
          device_index := i
          device_serial_number := sn
          channel_index := j
          channel_serial_number := csn }
        d)

/-- One iteration of the device scan (biologic.py:116-142): skip the ordinal
when `not success`; when `not sn`, log a warning about an uninitialized
device and likewise `continue` (so no entry at all is created for it);
otherwise resolve the name and add one entry per reported channel. -/
def device_step (cfg : List (Int × String)) (g : Nat → Int × List Int × Int)
    (d : Dict Pipeline) (i : Nat) : Dict Pipeline :=
  match g i with
  | (sn, channel_sns, success) =>
    if success = 0 then d
    else if sn = 0 then d
    else add_channels (resolve_device_name cfg sn) i sn channel_sns 0 d

/-- The scan `for i in range(n)`, unrolled as a recursion that performs
ordinal `n - 1` last (i.e. ordinals in ascending order). -/
def get_all_pipelines_upto (cfg : List (Int × String)) (g : Nat → Int × List Int × Int) :
    Nat → Dict Pipeline
  | 0 => []
  | n + 1 => device_step cfg g (get_all_pipelines_upto cfg g n) n

/-- Embedding of `BiologicAPI.get_all_pipelines` (biologic.py:107-143):
scan device ordinals `range(17)` and build the registry dict. -/
def get_all_pipelines (cfg : List (Int × String)) (g : Nat → Int × List Int × Int) :
    Dict Pipeline :=
  get_all_pipelines_upto cfg g 17

/-- Embedding of `BiologicAPI.get_pipeline` (biologic.py:145-153):
`self.pipelines.get(pipeline)`, raising the unknown-pipeline `ValueError`
when absent.  No driver call is made. -/
def get_pipeline (pipelines : Dict Pipeline) (pid : String) : Except BioError Pipeline :=
  match dictLookup pipelines pid with
  | some p => Except.ok p
  | none => Except.error (BioError.unknownPipeline pid)

/-- Embedding of `BiologicAPI.select_pipeline` (biologic.py:155-165):
resolve, call `SelectChannel`, raise "Failed to switch channel" when the
returned flag differs from 1 (the trailing `sleep(0.05)` has no observable
effect here).  The first component is the trace of driver calls made. -/
def select_pipeline (ec : ECLab) (pipelines : Dict Pipeline) (pid : String) :
    List Call × Except BioError Unit :=
  match get_pipeline pipelines pid with
  | Except.error e => ([], Except.error e)
  | Except.ok pd =>
    ([Call.selectChannel pd.device_index pd.channel_index],
     if ec.selectChannel pd.device_index pd.channel_index ≠ 1 then
       Except.error BioError.switchFailed
     else Except.ok ())

/-- Embedding of `BiologicAPI.load_settings` (biologic.py:199-214).  The
filesystem is the predicate `fsExists`; the source checks
`settings_file.exists()` and raises `FileNotFoundError` before resolving the
pipeline or touching the driver. -/
def load_settings (ec : ECLab) (pipelines : Dict Pipeline) (fsExists : String → Bool)
    (pid settings_file : String) : List Call × Except BioError Unit :=
  if fsExists settings_file = false then ([], Except.error BioError.fileNotFound)
  else
    match get_pipeline pipelines pid with
    | Except.error e => ([], Except.error e)
    | Except.ok pd =>
      match select_pipeline ec pipelines pid with
      | (tr, Except.error e) => (tr, Except.error e)
      | (tr, Except.ok _) =>
        (tr ++ [Call.loadSettings pd.device_index pd.channel_index settings_file],
         if ec.loadSettings pd.device_index pd.channel_index settings_file ≠ 1 then
           Except.error BioError.loadFailed
         else Except.ok ())

/-- Embedding of `BiologicAPI.run_channel` (biologic.py:216-229): resolve,
select, call `RunChannel`, raise "Failed to start measurement." on a
non-1 flag.  The source performs no check at all on `output_path` (it is
only wrapped in `Path(...)` and stringified), and consults no online or
offline state. -/
def run_channel (ec : ECLab) (pipelines : Dict Pipeline) (pid output_path : String) :
    List Call × Except BioError Unit :=
  match get_pipeline pipelines pid with
  | Except.error e => ([], Except.error e)
  | Except.ok pd =>
    match select_pipeline ec pipelines pid with
    | (tr, Except.error e) => (tr, Except.error e)
    | (tr, Except.ok _) =>
      (tr ++ [Call.runChannel pd.device_index pd.channel_index output_path],
       if ec.runChannel pd.device_index pd.channel_index output_path ≠ 1 then
         Except.error BioError.runFailed
       else Except.ok ())

/-- Embedding of `BiologicAPI.start` (biologic.py:231-234): `load_settings`
then `run_channel`, the second skipped when the first raises. -/
def start (ec : ECLab) (pipelines : Dict Pipeline) (fsExists : String → Bool)
    (pid input_file output_file : String) : List Call × Except BioError Unit :=
  match load_settings ec pipelines fsExists pid input_file with
  | (tr, Except.error e) => (tr, Except.error e)
  | (tr, Except.ok _) =>
    match run_channel ec pipelines pid output_file with
    | (tr2, r) => (tr ++ tr2, r)

/-- Embedding of `BiologicAPI.stop` (biologic.py:236-247). -/
def stop (ec : ECLab) (pipelines : Dict Pipeline) (pid : String) :
    List Call × Except BioError Unit :=
  match get_pipeline pipelines pid with
  | Except.error e => ([], Except.error e)
  | Except.ok pd =>
    match select_pipeline ec pipelines pid with
    | (tr, Except.error e) => (tr, Except.error e)
    | (tr, Except.ok _) =>
      (tr ++ [Call.stopChannel pd.device_index pd.channel_index],
       if ec.stopChannel pd.device_index pd.channel_index ≠ 1 then
         Except.error BioError.stopFailed
       else Except.ok ())

/-- Embedding of `BiologicAPI.get_experiment_info` (biologic.py:249-258):
resolve, select, call `GetExperimentInfos`, and return
`(start, end, folder, files)`.  The fifth component of the driver tuple
(the `result` flag) is bound but never inspected by the source, so the
tuple is returned whatever its value. -/
def get_experiment_info (ec : ECLab) (pipelines : Dict Pipeline) (pid : String) :
    List Call ×
      Except BioError (Option String × Option String × Option String × List (Option String)) :=
  match get_pipeline pipelines pid with
  | Except.error e => ([], Except.error e)
  | Except.ok pd =>
    match select_pipeline ec pipelines pid with
    | (tr, Except.error e) => (tr, Except.error e)
    | (tr, Except.ok _) =>
      let info := ec.getExperimentInfos pd.device_index pd.channel_index
      (tr ++ [Call.getExperimentInfos pd.device_index pd.channel_index],
       Except.ok (info.start, info.endTime, info.folder, info.files))

/-- The dict-comprehension / fall-through of `get_status`
(biologic.py:178-185): `None` or an empty list selects the whole registry,
otherwise `{pid: self.pipelines[pid] for pid in pipeline_ids if pid in self.pipelines}`. -/
def select_pipeline_dicts (pipelines : Dict Pipeline) (pipeline_ids : Option (List String)) :
    Dict Pipeline :=
  match pipeline_ids with
  | none => pipelines
  | some ids =>
    if ids.isEmpty then pipelines
    else
      ids.foldl
        (fun d pid =>
          match dictLookup pipelines pid with
          | some p => dictInsert pid p d
          | none => d)
        []

/-- Embedding of `BiologicAPI.get_status` (biologic.py:167-197): pick the
pipelines, then `status[pid] = _human_readable_status(MeasureStatus(...))`
for each.  The trace records one `MeasureStatus` call per selected
pipeline. -/
def get_status (ec : ECLab) (tables : StatusTables) (pipelines : Dict Pipeline)
    (pipeline_ids : Option (List String)) : List Call × Dict (Dict SVal) :=
  let pipeline_dicts := select_pipeline_dicts pipelines pipeline_ids
  (pipeline_dicts.map fun e => Call.measureStatus e.2.device_index e.2.channel_index,
   pipeline_dicts.foldl
     (fun st e =>
       dictInsert e.1
         (human_readable_status tables (ec.measureStatus e.2.device_index e.2.channel_index))
         st)
     [])

/-- The first lines of `get_job_id` (biologic.py:265-270): `None` or an
empty list yields `list(self.pipelines.keys())`, otherwise the requested
ids filtered by registry membership. -/
def resolved_pids (pipelines : Dict Pipeline) (pipeline_ids : Option (List String)) :
    List String :=
  match pipeline_ids with
  | none => keys pipelines
  | some ids =>
    if ids.isEmpty then keys pipelines
    else ids.filter fun pid => (dictLookup pipelines pid).isSome

/-- Python's `folder.split("\\")[-2]` (biologic.py:279).  The source would
raise `IndexError` on a folder with no backslash at all; the total model
indexes with a default there, which no claim depends on. -/
def second_last_segment (s : String) : String :=
  let parts := s.splitOn "\\"
  parts.getD (parts.length - 2) ""

/-- The membership test `status[pid].get("Status", {}) in
["Run", "Pause", "Sync", "Pause_rec"]` (biologic.py:276): only a decoded
string value can equal one of the four names; the `{}` default and raw
numeric values never do. -/
def isActiveStatus (v : Option SVal) : Bool :=
  match v with
  | some (SVal.str s) => s ∈ ["Run", "Pause", "Sync", "Pause_rec"]
  | _ => false

/-- The body of one iteration of the `for pid in pipeline_ids` loop of
`get_job_id` (biologic.py:275-282), threading the accumulated trace and the
`job_ids` dict; a raise from `get_experiment_info` aborts the remaining
iterations (the error short-circuits, making no further calls). -/
def job_id_step (ec : ECLab) (pipelines : Dict Pipeline) (status : Dict (Dict SVal))
    (acc : List Call × Except BioError (Dict (Option String))) (pid : String) :
    List Call × Except BioError (Dict (Option String)) :=
  match acc with
  | (tr, Except.error e) => (tr, Except.error e)
  | (tr, Except.ok job_ids) =>
    if isActiveStatus ((dictLookup status pid).bind fun m => dictLookup m "Status") then
      match get_experiment_info ec pipelines pid with
      | (tri, Except.error e) => (tr ++ tri, Except.error e)
      | (tri, Except.ok (startT, endT, folder, _)) =>
        (tr ++ tri,
         Except.ok
           (dictInsert pid
             (if startT.isSome && endT.isNone then
                some (second_last_segment (folder.getD ""))
              else none)
             job_ids))
    else (tr, Except.ok (dictInsert pid none job_ids))

/-- Embedding of `BiologicAPI.get_job_id` (biologic.py:260-283): resolve
the pid list, fetch all statuses first (cheap), then walk the pids fetching
experiment info only for the active ones. -/
def get_job_id (ec : ECLab) (tables : StatusTables) (pipelines : Dict Pipeline)
    (pipeline_ids : Option (List String)) :
    List Call × Except BioError (Dict (Option String)) :=
  let pids := resolved_pids pipelines pipeline_ids
  let st := get_status ec tables pipelines (some pids)
  pids.foldl (job_id_step ec pipelines st.2) (st.1, Except.ok [])

/-- Embedding of `recv_all` (daemon.py:22-30).  A socket is modelled as the
sequence of payloads successive `recv` calls return, each no larger than
the receive buffer, with the empty string signalling the peer closed its
write side; the loop accumulates chunks until the first empty one. -/
def recv_all : List String → String
  | [] => ""
  | c :: rest => if c = "" then "" else c ++ recv_all rest

/-- The read performed by the daemon's per-connection handler
`receive_command` (daemon.py:52): a single `conn.recv(4096)`, i.e. only the
first chunk the socket delivers. -/
def receive_command_read (chunks : List String) : String :=
  chunks.headD ""

/-- The `serial_to_name` configuration used by the repository's test suite
(`tests/test_biologic.py`): `{123: "MPG2-1", 456: "hello?"}`. -/
def fixtureCfg : List (Int × String) := [(123, "MPG2-1"), (456, "hello?")]

/-- The device enumeration of the test suite's `FakeECLab.GetDeviceSN`:
ordinal 0 is serial 123 with ten channels, ordinal 1 is serial 999 with
five channels, ordinal 2 reports success with serial 0 (an uninitialized,
offline device with three channel slots), and every other ordinal reports
failure. -/
def fakeGetDeviceSN (i : Nat) : Int × List Int × Int :=
  if i = 0 then (123, [6001, 6002, 6003, 6004, 6005, 6006, 6007, 6008, 6009, 6010], 1)
  else if i = 1 then (999, [7001, 7002, 7003, 7004, 7005], 1)
  else if i = 2 then (0, [0, 0, 0], 1)
  else (0, [0, 0, 0, 0], 0)

/-- The test suite's `FakeECLab` in its default (healthy) configuration:
every command flag is 1, the status vector starts with code 1 (decoding to
"Run"), and `GetExperimentInfos` reports a started, unfinished job in
`some\folder\location\thisisthejob\`. -/
def fakeECLab : ECLab where
  getDeviceSN := fakeGetDeviceSN
  selectChannel := fun _ _ => 1
  loadSettings := fun _ _ _ => 1
  runChannel := fun _ _ _ => 1
  stopChannel := fun _ _ => 1
  measureStatus := fun d _ => if d = 2 then List.replicate 32 0 else 1 :: List.replicate 31 0
  getExperimentInfos := fun _ _ =>
    { start := some "2025-11-10 15:22:09.494"
      endTime := none
      folder := some "some\\folder\\location\\thisisthejob\\"
      files := [some "file1.mpr", some "file2.mpr", some "file3.mpr"] ++ List.replicate 17 none
      result := 1 }

/-- The test suite's `FakeECLab` with `simulate_bad_channel = True`: load,
run and stop flags are 0 and `GetExperimentInfos` returns
`(None, None, None, (None,) * 20, 0)`, i.e. a driver-reported failure. -/
def badECLab : ECLab :=
  { fakeECLab with
    loadSettings := fun _ _ _ => 0
    runChannel := fun _ _ _ => 0
    stopChannel := fun _ _ => 0
    getExperimentInfos := fun _ _ =>
      { start := none, endTime := none, folder := none
        files := List.replicate 20 none, result := 0 } }

/-- Modelled from the spec: a minimal concrete instance of the status
tables of `aurora_biologic.dicts` (absent from the sources under review),
carrying the one field the dispatcher logic reads — field 0 is named
"Status" and its nested enumeration decodes the run states, including the
four active ones {Run, Pause, Sync, Pause_rec}.  Used only to instantiate
theorems that hold for every table. -/
def fixtureTables : StatusTables where
  status_codes := ["Status"]
  status_nested_codes := fun i =>
    if i = 0 then some [(0, "Stop"), (1, "Run"), (2, "Pause"), (3, "Sync"), (4, "Pause_rec")]
    else none

/-- The test fixture driver with every channel idle: the measured status
vector is all zeros, decoding to "Stop" (not in the active set). -/
def idleECLab : ECLab :=
  { fakeECLab with measureStatus := fun _ _ => List.replicate 32 0 }

/-- The registry the test fixture produces. -/
def fixtureRegistry : Dict Pipeline := get_all_pipelines fixtureCfg fakeGetDeviceSN

theorem keys_nil {α : Type} : keys ([] : Dict α) = [] := rfl

theorem keys_cons {α : Type} (e : String × α) (d : Dict α) :
    keys (e :: d) = e.1 :: keys d := rfl

theorem dictLookup_insert {α : Type} (d : Dict α) (k q : String) (v : α) :
    dictLookup (dictInsert k v d) q = if q = k then some v else dictLookup d q := by
  induction d with
  | nil =>
    by_cases h : q = k
    · simp [dictInsert, dictLookup, h]
    · simp [dictInsert, dictLookup, h, Ne.symm h]
  | cons hd tl ih =>
    obtain ⟨k', v'⟩ := hd
    by_cases hk : k' = k
    · subst hk
      by_cases hq : q = k'
      · simp [dictInsert, dictLookup, hq]
      · simp [dictInsert, dictLookup, hq, Ne.symm hq]
    · by_cases hq : k' = q
      · have hqk : ¬q = k := fun h => hk (hq.trans h)
        simp [dictInsert, dictLookup, hk, hq, hqk]
      · simp [dictInsert, dictLookup, hk, hq, ih]

theorem mem_keys_insert {α : Type} (d : Dict α) (k q : String) (v : α) :
    q ∈ keys (dictInsert k v d) ↔ q = k ∨ q ∈ keys d := by
  induction d with
  | nil => simp [dictInsert, keys]
  | cons hd tl ih =>
    obtain ⟨k', v'⟩ := hd
    by_cases hk : k' = k
    · subst hk
      simp [dictInsert, keys_cons]
    · rw [show dictInsert k v ((k', v') :: tl) = (k', v') :: dictInsert k v tl by
        simp [dictInsert, hk]]
      rw [keys_cons, keys_cons, List.mem_cons, List.mem_cons, ih]
      tauto

theorem keys_nodup_insert {α : Type} (d : Dict α) (k : String) (v : α)
    (h : (keys d).Nodup) : (keys (dictInsert k v d)).Nodup := by
  induction d with
  | nil => simp [dictInsert, keys]
  | cons hd tl ih =>
    obtain ⟨k', v'⟩ := hd
    rw [keys_cons, List.nodup_cons] at h
    by_cases hk : k' = k
    · subst hk
      rw [show dictInsert k' v ((k', v') :: tl) = (k', v) :: tl by simp [dictInsert]]
      rw [keys_cons, List.nodup_cons]
      exact h
    · rw [show dictInsert k v ((k', v') :: tl) = (k', v') :: dictInsert k v tl by
        simp [dictInsert, hk]]
      rw [keys_cons, List.nodup_cons]
      refine ⟨?_, ih h.2⟩
      intro hmem
      rcases (mem_keys_insert tl k k' v).mp hmem with h1 | h1
      · exact hk h1
      · exact h.1 h1

theorem dictLookup_isSome_iff {α : Type} (d : Dict α) (k : String) :
    (dictLookup d k).isSome = true ↔ k ∈ keys d := by
  induction d with
  | nil => simp [dictLookup, keys]
  | cons hd tl ih =>
    obtain ⟨k', v'⟩ := hd
    rw [keys_cons, List.mem_cons]
    by_cases hk : k' = k
    · subst hk
      simp [dictLookup]
    · have hne : ¬k = k' := fun h => hk h.symm
      rw [show dictLookup ((k', v') :: tl) k = dictLookup tl k by simp [dictLookup, hk]]
      rw [ih]
      simp [hne]

theorem dictLookup_eq_none_iff {α : Type} (d : Dict α) (k : String) :
    dictLookup d k = none ↔ k ∉ keys d := by
  rw [← dictLookup_isSome_iff]
  cases dictLookup d k <;> simp

theorem dictLookup_mem {α : Type} (d : Dict α) (k : String) (v : α)
    (h : dictLookup d k = some v) : (k, v) ∈ d := by
  induction d with
  | nil => simp [dictLookup] at h
  | cons hd tl ih =>
    obtain ⟨k', v'⟩ := hd
    by_cases hk : k' = k
    · subst hk
      have hv : v' = v := by simpa [dictLookup] using h
      subst hv
      exact List.mem_cons_self _ _
    · rw [show dictLookup ((k', v') :: tl) k = dictLookup tl k by simp [dictLookup, hk]] at h
      exact List.mem_cons_of_mem _ (ih h)

theorem mem_dictInsert {α : Type} (d : Dict α) (k : String) (v : α) (e : String × α)
    (h : e ∈ dictInsert k v d) : e = (k, v) ∨ e ∈ d := by
  induction d with
  | nil => simpa [dictInsert] using h
  | cons hd tl ih =>
    obtain ⟨k', v'⟩ := hd
    by_cases hk : k' = k
    · subst hk
      rcases (by simpa [dictInsert] using h : e = (k', v) ∨ e ∈ tl) with h1 | h1
      · exact Or.inl h1
      · exact Or.inr (List.mem_cons_of_mem _ h1)
    · rcases (by simpa [dictInsert, hk] using h : e = (k', v') ∨ e ∈ dictInsert k v tl) with
        h1 | h1
      · exact Or.inr (by simp [h1])
      · rcases ih h1 with h2 | h2
        · exact Or.inl h2
        · exact Or.inr (List.mem_cons_of_mem _ h2)

/-- The physical coordinates of a pipeline. -/
def pairFn (p : Pipeline) : Nat × Nat := (p.device_index, p.channel_index)

/-- The coordinate pairs stored in a registry, in order. -/
def pairs (d : Dict Pipeline) : List (Nat × Nat) := d.map fun e => pairFn e.2

theorem pairs_nil : pairs [] = [] := rfl

theorem pairs_cons (e : String × Pipeline) (d : Dict Pipeline) :
    pairs (e :: d) = pairFn e.2 :: pairs d := rfl

theorem mem_pairs_insert (d : Dict Pipeline) (k : String) (v : Pipeline) (q : Nat × Nat)
    (h : q ∈ pairs (dictInsert k v d)) : q = pairFn v ∨ q ∈ pairs d := by
  induction d with
  | nil => simpa [dictInsert, pairs] using h
  | cons hd tl ih =>
    obtain ⟨k', v'⟩ := hd
    by_cases hk : k' = k
    · subst hk
      rcases (by simpa [dictInsert, pairs_cons] using h : q = pairFn v ∨ q ∈ pairs tl) with
        h1 | h1
      · exact Or.inl h1
      · exact Or.inr (by rw [pairs_cons]; exact List.mem_cons_of_mem _ h1)
    · rw [show dictInsert k v ((k', v') :: tl) = (k', v') :: dictInsert k v tl by
        simp [dictInsert, hk], pairs_cons, List.mem_cons] at h
      rcases h with h1 | h1
      · exact Or.inr (by rw [pairs_cons, List.mem_cons]; exact Or.inl h1)
      · rcases ih h1 with h2 | h2
        · exact Or.inl h2
        · exact Or.inr (by rw [pairs_cons]; exact List.mem_cons_of_mem _ h2)

theorem pairs_nodup_insert (d : Dict Pipeline) (k : String) (v : Pipeline)
    (h1 : (pairs d).Nodup) (h2 : pairFn v ∉ pairs d) :
    (pairs (dictInsert k v d)).Nodup := by
  induction d with
  | nil => simp [dictInsert, pairs]
  | cons hd tl ih =>
    obtain ⟨k', v'⟩ := hd
    rw [pairs_cons, List.nodup_cons] at h1
    rw [pairs_cons, List.mem_cons] at h2
    push_neg at h2
    by_cases hk : k' = k
    · subst hk
      rw [show dictInsert k' v ((k', v') :: tl) = (k', v) :: tl by simp [dictInsert]]
      rw [pairs_cons, List.nodup_cons]
      exact ⟨h2.2, h1.2⟩
    · rw [show dictInsert k v ((k', v') :: tl) = (k', v') :: dictInsert k v tl by
        simp [dictInsert, hk]]
      rw [pairs_cons, List.nodup_cons]
      refine ⟨?_, ih h1.2 h2.2⟩
      intro hmem
      rcases mem_pairs_insert tl k v _ hmem with hq | hq
      · exact h2.1 hq.symm
      · exact h1.1 hq

theorem dictLookup_pairFn_mem (d : Dict Pipeline) (k : String) (v : Pipeline)
    (h : dictLookup d k = some v) : pairFn v ∈ pairs d := by
  have := dictLookup_mem d k v h
  exact List.mem_map_of_mem (fun e => pairFn e.2) this

theorem lookup_pair_injective (d : Dict Pipeline) (h : (pairs d).Nodup)
    (k1 k2 : String) (v1 v2 : Pipeline)
    (h1 : dictLookup d k1 = some v1) (h2 : dictLookup d k2 = some v2) (hne : k1 ≠ k2) :
    pairFn v1 ≠ pairFn v2 := by
  induction d with
  | nil => simp [dictLookup] at h1
  | cons hd tl ih =>
    obtain ⟨k', v'⟩ := hd
    rw [pairs_cons, List.nodup_cons] at h
    by_cases hk1 : k' = k1
    · subst hk1
      have hv1 : v' = v1 := by simpa [dictLookup] using h1
      subst hv1
      have hk2 : ¬k' = k2 := fun hh => hne hh
      rw [show dictLookup ((k', v') :: tl) k2 = dictLookup tl k2 by
        simp [dictLookup, hk2]] at h2
      intro heq
      exact h.1 (heq ▸ dictLookup_pairFn_mem tl k2 v2 h2)
    · rw [show dictLookup ((k', v') :: tl) k1 = dictLookup tl k1 by
        simp [dictLookup, hk1]] at h1
      by_cases hk2 : k' = k2
      · subst hk2
        have hv2 : v' = v2 := by simpa [dictLookup] using h2
        subst hv2
        intro heq
        exact h.1 (heq ▸ dictLookup_pairFn_mem tl k1 v1 h1)
      · rw [show dictLookup ((k', v') :: tl) k2 = dictLookup tl k2 by
          simp [dictLookup, hk2]] at h2
        exact ih h.2 h1 h2

/-- Loop bound on registry entries during the channel scan: every stored
pipeline sits at coordinates strictly before device `i`, channel `j`. -/
def PipeBound (i j : Nat) (p : Pipeline) : Prop :=
  p.device_index < i ∨ (p.device_index = i ∧ p.channel_index < j)

theorem add_channels_invariant (name : String) (i : Nat) (sn : Int) :
    ∀ (csns : List Int) (j : Nat) (d : Dict Pipeline),
      (keys d).Nodup → (pairs d).Nodup → (∀ e ∈ d, PipeBound i j e.2) →
      (keys (add_channels name i sn csns j d)).Nodup ∧
        (pairs (add_channels name i sn csns j d)).Nodup ∧
        (∀ e ∈ add_channels name i sn csns j d, PipeBound i (j + csns.length) e.2) := by
  intro csns
  induction csns with
  | nil =>
    intro j d h1 h2 h3
    exact ⟨h1, h2, by simpa [add_channels] using h3⟩
  | cons csn rest ih =>
    intro j d h1 h2 h3
    set v : Pipeline :=
      { device_name := name, device_index := i, device_serial_number := sn,
        channel_index := j, channel_serial_number := csn } with hv
    have hfresh : pairFn v ∉ pairs d := by
      intro hmem
      rcases List.mem_map.mp hmem with ⟨e, he, hpe⟩
      rcases h3 e he with hb | hb
      · have : e.2.device_index = i := congrArg Prod.fst hpe
        omega
      · have hdi : e.2.device_index = i := congrArg Prod.fst hpe
        have hcj : e.2.channel_index = j := congrArg Prod.snd hpe
        omega
    have hstep := ih (j + 1) (dictInsert (name ++ "-" ++ toString (j + 1)) v d)
      (keys_nodup_insert d _ v h1)
      (pairs_nodup_insert d _ v h2 hfresh)
      (by
        intro e he
        rcases mem_dictInsert d _ v e he with he1 | he1
        · rw [he1]
          exact Or.inr ⟨rfl, Nat.lt_succ_self j⟩
        · rcases h3 e he1 with hb | hb
          · exact Or.inl hb
          · exact Or.inr ⟨hb.1, Nat.lt_succ_of_lt hb.2⟩)
    refine ⟨hstep.1, hstep.2.1, ?_⟩
    intro e he
    have hb := hstep.2.2 e (by simpa [add_channels] using he)
    rcases hb with hb | hb
    · exact Or.inl hb
    · refine Or.inr ⟨hb.1, ?_⟩
      simpa [Nat.add_comm, Nat.add_left_comm, Nat.add_assoc] using hb.2

theorem get_all_pipelines_upto_invariant (cfg : List (Int × String))
    (g : Nat → Int × List Int × Int) :
    ∀ n : Nat,
      (keys (get_all_pipelines_upto cfg g n)).Nodup ∧
        (pairs (get_all_pipelines_upto cfg g n)).Nodup ∧
        (∀ e ∈ get_all_pipelines_upto cfg g n, e.2.device_index < n) := by
  intro n
  induction n with
  | zero => simp [get_all_pipelines_upto, keys, pairs]
  | succ n ih =>
    have hstep :
        (keys (device_step cfg g (get_all_pipelines_upto cfg g n) n)).Nodup ∧
          (pairs (device_step cfg g (get_all_pipelines_upto cfg g n) n)).Nodup ∧
          (∀ e ∈ device_step cfg g (get_all_pipelines_upto cfg g n) n,
            e.2.device_index < n + 1) := by
      rcases hgn : g n with ⟨sn, csns, fl⟩
      simp only [device_step, hgn]
      by_cases hfl : fl = 0
      · rw [if_pos hfl]
        exact ⟨ih.1, ih.2.1, fun e he => Nat.lt_succ_of_lt (ih.2.2 e he)⟩
      · rw [if_neg hfl]
        by_cases hsn : sn = 0
        · rw [if_pos hsn]
          exact ⟨ih.1, ih.2.1, fun e he => Nat.lt_succ_of_lt (ih.2.2 e he)⟩
        · rw [if_neg hsn]
          have hadd := add_channels_invariant (resolve_device_name cfg sn) n sn csns 0
            (get_all_pipelines_upto cfg g n) ih.1 ih.2.1
            (fun e he => Or.inl (ih.2.2 e he))
          refine ⟨hadd.1, hadd.2.1, ?_⟩
          intro e he
          rcases hadd.2.2 e he with hb | hb
          · exact Nat.lt_succ_of_lt hb
          · omega
    simpa [get_all_pipelines_upto] using hstep

theorem registry_keys_nodup (cfg : List (Int × String)) (g : Nat → Int × List Int × Int) :
    (keys (get_all_pipelines cfg g)).Nodup :=
  (get_all_pipelines_upto_invariant cfg g 17).1

theorem registry_pairs_nodup (cfg : List (Int × String)) (g : Nat → Int × List Int × Int) :
    (pairs (get_all_pipelines cfg g)).Nodup :=
  (get_all_pipelines_upto_invariant cfg g 17).2.1

theorem mem_keys_status_fold (f : String × Pipeline → Dict SVal) :
    ∀ (l : List (String × Pipeline)) (st : Dict (Dict SVal)) (q : String),
      (q ∈ keys (l.foldl (fun acc e => dictInsert e.1 (f e) acc) st) ↔
        q ∈ keys st ∨ q ∈ keys l) := by
  intro l
  induction l with
  | nil => intro st q; simp [keys]
  | cons e rest ih =>
    intro st q
    rw [List.foldl_cons, ih, mem_keys_insert, keys_cons, List.mem_cons]
    tauto

theorem mem_keys_get_status (ec : ECLab) (tables : StatusTables) (reg : Dict Pipeline)
    (ids : Option (List String)) (q : String) :
    q ∈ keys (get_status ec tables reg ids).2 ↔ q ∈ keys (select_pipeline_dicts reg ids) := by
  rw [show (get_status ec tables reg ids).2 =
      (select_pipeline_dicts reg ids).foldl
        (fun acc e =>
          dictInsert e.1
            (human_readable_status tables (ec.measureStatus e.2.device_index e.2.channel_index))
            acc)
        [] from rfl]
  rw [mem_keys_status_fold
    (fun e => human_readable_status tables (ec.measureStatus e.2.device_index e.2.channel_index))]
  simp [keys]

theorem mem_keys_lookup_fold (reg : Dict Pipeline) :
    ∀ (ids : List String) (st : Dict Pipeline) (q : String),
      (q ∈ keys (ids.foldl
            (fun d pid =>
              match dictLookup reg pid with
              | some p => dictInsert pid p d
              | none => d)
            st) ↔
        q ∈ keys st ∨ (q ∈ ids ∧ q ∈ keys reg)) := by
  intro ids
  induction ids with
  | nil => intro st q; simp
  | cons pid rest ih =>
    intro st q
    rw [List.foldl_cons]
    rcases hl : dictLookup reg pid with _ | p
    · have hnot : pid ∉ keys reg := (dictLookup_eq_none_iff reg pid).mp hl
      rw [ih]
      show (q ∈ keys st ∨ (q ∈ rest ∧ q ∈ keys reg)) ↔
        (q ∈ keys st ∨ (q ∈ pid :: rest ∧ q ∈ keys reg))
      constructor
      · rintro (h | h)
        · exact Or.inl h
        · exact Or.inr ⟨List.mem_cons_of_mem _ h.1, h.2⟩
      · rintro (h | ⟨hmem, hreg⟩)
        · exact Or.inl h
        · rcases List.mem_cons.mp hmem with h1 | h1
          · exact absurd (h1 ▸ hreg) hnot
          · exact Or.inr ⟨h1, hreg⟩
    · have hreg : pid ∈ keys reg := by
        rw [← dictLookup_isSome_iff, hl]; rfl
      rw [ih]
      show (q ∈ keys (dictInsert pid p st) ∨ (q ∈ rest ∧ q ∈ keys reg)) ↔
        (q ∈ keys st ∨ (q ∈ pid :: rest ∧ q ∈ keys reg))
      rw [mem_keys_insert]
      constructor
      · rintro ((h | h) | h)
        · exact Or.inr ⟨by simp [h], h ▸ hreg⟩
        · exact Or.inl h
        · exact Or.inr ⟨List.mem_cons_of_mem _ h.1, h.2⟩
      · rintro (h | ⟨hmem, hr⟩)
        · exact Or.inl (Or.inr h)
        · rcases List.mem_cons.mp hmem with h1 | h1
          · exact Or.inl (Or.inl h1)
          · exact Or.inr ⟨h1, hr⟩

theorem mem_keys_select_some (reg : Dict Pipeline) (ids : List String)
    (h : ids ≠ []) (q : String) :
    q ∈ keys (select_pipeline_dicts reg (some ids)) ↔ q ∈ ids ∧ q ∈ keys reg := by
  have hne : ids.isEmpty = false := by
    cases ids with
    | nil => exact absurd rfl h
    | cons a l => rfl
  rw [show select_pipeline_dicts reg (some ids) =
      ids.foldl
        (fun d pid =>
          match dictLookup reg pid with
          | some p => dictInsert pid p d
          | none => d)
        [] by simp [select_pipeline_dicts, hne]]
  rw [mem_keys_lookup_fold reg ids [] q]
  simp [keys]

theorem info_not_mem_get_status_trace (ec : ECLab) (tables : StatusTables)
    (reg : Dict Pipeline) (ids : Option (List String)) (d c : Nat) :
    Call.getExperimentInfos d c ∉ (get_status ec tables reg ids).1 := by
  intro h
  rw [show (get_status ec tables reg ids).1 =
      (select_pipeline_dicts reg ids).map
        (fun e => Call.measureStatus e.2.device_index e.2.channel_index) from rfl] at h
  rcases List.mem_map.mp h with ⟨e, _, he⟩
  exact Call.noConfusion he

theorem get_experiment_info_ok (ec : ECLab) (reg : Dict Pipeline) (pid : String)
    (t : Option String × Option String × Option String × List (Option String))
    (h : (get_experiment_info ec reg pid).2 = Except.ok t) :
    ∃ pd, dictLookup reg pid = some pd ∧
      ec.selectChannel pd.device_index pd.channel_index = 1 ∧
      t = ((ec.getExperimentInfos pd.device_index pd.channel_index).start,
           (ec.getExperimentInfos pd.device_index pd.channel_index).endTime,
           (ec.getExperimentInfos pd.device_index pd.channel_index).folder,
           (ec.getExperimentInfos pd.device_index pd.channel_index).files) := by
  rcases hl : dictLookup reg pid with _ | pd
  · rw [show get_experiment_info ec reg pid =
        ([], Except.error (BioError.unknownPipeline pid)) by
      simp [get_experiment_info, get_pipeline, hl]] at h
    exact absurd h (by simp)
  · by_cases hsel : ec.selectChannel pd.device_index pd.channel_index = 1
    · refine ⟨pd, rfl, hsel, ?_⟩
      rw [show get_experiment_info ec reg pid =
          ([Call.selectChannel pd.device_index pd.channel_index,
            Call.getExperimentInfos pd.device_index pd.channel_index],
           Except.ok ((ec.getExperimentInfos pd.device_index pd.channel_index).start,
             (ec.getExperimentInfos pd.device_index pd.channel_index).endTime,
             (ec.getExperimentInfos pd.device_index pd.channel_index).folder,
             (ec.getExperimentInfos pd.device_index pd.channel_index).files)) by
        simp [get_experiment_info, get_pipeline, select_pipeline, hl, hsel]] at h
      have ht : Except.ok ((ec.getExperimentInfos pd.device_index pd.channel_index).start,
          (ec.getExperimentInfos pd.device_index pd.channel_index).endTime,
          (ec.getExperimentInfos pd.device_index pd.channel_index).folder,
          (ec.getExperimentInfos pd.device_index pd.channel_index).files) =
          (Except.ok t :
            Except BioError
              (Option String × Option String × Option String × List (Option String))) := h
      simpa using ht.symm
    · rw [show get_experiment_info ec reg pid =
          ([Call.selectChannel pd.device_index pd.channel_index],
           Except.error BioError.switchFailed) by
        simp [get_experiment_info, get_pipeline, select_pipeline, hl, hsel]] at h
      exact absurd h (by simp)

theorem get_experiment_info_trace (ec : ECLab) (reg : Dict Pipeline) (pid : String)
    (c : Call) (h : c ∈ (get_experiment_info ec reg pid).1) :
    ∃ pd, dictLookup reg pid = some pd ∧
      (c = Call.selectChannel pd.device_index pd.channel_index ∨
        c = Call.getExperimentInfos pd.device_index pd.channel_index) := by
  rcases hl : dictLookup reg pid with _ | pd
  · rw [show (get_experiment_info ec reg pid).1 = [] by
      simp [get_experiment_info, get_pipeline, hl]] at h
    exact absurd h (List.not_mem_nil c)
  · refine ⟨pd, rfl, ?_⟩
    by_cases hsel : ec.selectChannel pd.device_index pd.channel_index = 1
    · rw [show (get_experiment_info ec reg pid).1 =
          [Call.selectChannel pd.device_index pd.channel_index,
           Call.getExperimentInfos pd.device_index pd.channel_index] by
        simp [get_experiment_info, get_pipeline, select_pipeline, hl, hsel]] at h
      simpa using h
    · rw [show (get_experiment_info ec reg pid).1 =
          [Call.selectChannel pd.device_index pd.channel_index] by
        simp [get_experiment_info, get_pipeline, select_pipeline, hl, hsel]] at h
      exact Or.inl (by simpa using h)

/-- The decoded Status field of one pipeline, as `get_job_id` reads it:
`status[pid].get("Status", {})` over the statuses fetched for `pids`. -/
def pipeline_status_value (ec : ECLab) (tables : StatusTables) (reg : Dict Pipeline)
    (pids : List String) (pid : String) : Option SVal :=
  (dictLookup (get_status ec tables reg (some pids)).2 pid).bind fun m => dictLookup m "Status"

/-- The job id `get_job_id` computes for one pipeline, as a function of the
driver's experiment info: on an active pipeline, the second-to-last
backslash-segment of the folder when the start timestamp is present and the
end timestamp absent, and `none` in every other case. -/
def job_id_value (ec : ECLab) (reg : Dict Pipeline) (status : Dict (Dict SVal))
    (pid : String) : Option String :=
  if isActiveStatus ((dictLookup status pid).bind fun m => dictLookup m "Status") then
    match dictLookup reg pid with
    | some pd =>
      if (ec.getExperimentInfos pd.device_index pd.channel_index).start.isSome &&
          (ec.getExperimentInfos pd.device_index pd.channel_index).endTime.isNone then
        some (second_last_segment
          ((ec.getExperimentInfos pd.device_index pd.channel_index).folder.getD ""))
      else none
    | none => none
  else none

theorem job_id_foldl_error (ec : ECLab) (reg : Dict Pipeline) (status : Dict (Dict SVal)) :
    ∀ (l : List String) (tr : List Call) (e : BioError),
      l.foldl (job_id_step ec reg status) (tr, Except.error e) = (tr, Except.error e) := by
  intro l
  induction l with
  | nil => intro tr e; rfl
  | cons pid rest ih =>
    intro tr e
    rw [List.foldl_cons]
    exact ih tr e

theorem job_id_step_inactive (ec : ECLab) (reg : Dict Pipeline) (status : Dict (Dict SVal))
    (tr : List Call) (m0 : Dict (Option String)) (pid : String)
    (h : isActiveStatus ((dictLookup status pid).bind fun m => dictLookup m "Status") = false) :
    job_id_step ec reg status (tr, Except.ok m0) pid =
      (tr, Except.ok (dictInsert pid none m0)) := by
  simp [job_id_step, h]

theorem job_id_step_active_err (ec : ECLab) (reg : Dict Pipeline) (status : Dict (Dict SVal))
    (tr : List Call) (m0 : Dict (Option String)) (pid : String)
    (tri : List Call) (e : BioError)
    (hact : isActiveStatus ((dictLookup status pid).bind fun m => dictLookup m "Status") = true)
    (hinfo : get_experiment_info ec reg pid = (tri, Except.error e)) :
    job_id_step ec reg status (tr, Except.ok m0) pid = (tr ++ tri, Except.error e) := by
  simp [job_id_step, hact, hinfo]

theorem job_id_step_active_ok (ec : ECLab) (reg : Dict Pipeline) (status : Dict (Dict SVal))
    (tr : List Call) (m0 : Dict (Option String)) (pid : String) (tri : List Call)
    (s en f : Option String) (fl : List (Option String))
    (hact : isActiveStatus ((dictLookup status pid).bind fun m => dictLookup m "Status") = true)
    (hinfo : get_experiment_info ec reg pid = (tri, Except.ok (s, en, f, fl))) :
    job_id_step ec reg status (tr, Except.ok m0) pid =
      (tr ++ tri,
       Except.ok
         (dictInsert pid
           (if s.isSome && en.isNone then some (second_last_segment (f.getD "")) else none)
           m0)) := by
  simp [job_id_step, hact, hinfo]

theorem job_id_foldl_ok (ec : ECLab) (reg : Dict Pipeline) (status : Dict (Dict SVal)) :
    ∀ (l : List String) (tr : List Call) (m0 m : Dict (Option String)),
      (l.foldl (job_id_step ec reg status) (tr, Except.ok m0)).2 = Except.ok m →
      ∀ pid, dictLookup m pid =
        if pid ∈ l then some (job_id_value ec reg status pid) else dictLookup m0 pid := by
  intro l
  induction l with
  | nil =>
    intro tr m0 m h pid
    have hm : m0 = m := by simpa using h
    subst hm
    simp
  | cons q rest ih =>
    intro tr m0 m h pid
    rw [List.foldl_cons] at h
    by_cases hact :
        isActiveStatus ((dictLookup status q).bind fun mm => dictLookup mm "Status") = true
    · rcases hinfo : get_experiment_info ec reg q with ⟨tri, r⟩
      rcases r with e | t
      · rw [job_id_step_active_err ec reg status tr m0 q tri e hact hinfo,
          job_id_foldl_error] at h
        exact absurd h (by simp)
      · obtain ⟨s, en, f, fl⟩ := t
        rw [job_id_step_active_ok ec reg status tr m0 q tri s en f fl hact hinfo] at h
        have hsteps := ih _ _ _ h pid
        rw [hsteps, dictLookup_insert]
        have hval :
            (if s.isSome && en.isNone then some (second_last_segment (f.getD ""))
              else none) = job_id_value ec reg status q := by
          rcases get_experiment_info_ok ec reg q (s, en, f, fl) (by rw [hinfo]) with
            ⟨pd, hpd, _, ht⟩
          have hs : s = (ec.getExperimentInfos pd.device_index pd.channel_index).start := by
            simpa using congrArg (fun x => x.1) ht
          have hen : en = (ec.getExperimentInfos pd.device_index pd.channel_index).endTime := by
            simpa using congrArg (fun x => x.2.1) ht
          have hf : f = (ec.getExperimentInfos pd.device_index pd.channel_index).folder := by
            simpa using congrArg (fun x => x.2.2.1) ht
          rw [job_id_value, if_pos hact, hpd, hs, hen, hf]
        by_cases hpr : pid ∈ rest
        · rw [if_pos hpr, if_pos (List.mem_cons_of_mem q hpr)]
        · by_cases hpq : pid = q
          · subst hpq
            rw [if_neg hpr, if_pos rfl, if_pos (List.mem_cons_self pid rest), hval]
          · rw [if_neg hpr, if_neg hpq, if_neg (by simp [hpq, hpr])]
    · have hact' :
          isActiveStatus ((dictLookup status q).bind fun mm => dictLookup mm "Status") =
            false := by
        simpa using hact
      rw [job_id_step_inactive ec reg status tr m0 q hact'] at h
      have hsteps := ih _ _ _ h pid
      rw [hsteps, dictLookup_insert]
      have hval : job_id_value ec reg status q = none := by
        simp [job_id_value, hact']
      by_cases hpr : pid ∈ rest
      · rw [if_pos hpr, if_pos (List.mem_cons_of_mem q hpr)]
      · by_cases hpq : pid = q
        · subst hpq
          rw [if_neg hpr, if_pos rfl, if_pos (List.mem_cons_self pid rest), hval]
        · rw [if_neg hpr, if_neg hpq, if_neg (by simp [hpq, hpr])]

theorem job_id_foldl_trace (ec : ECLab) (reg : Dict Pipeline) (status : Dict (Dict SVal)) :
    ∀ (l : List String) (acc : List Call × Except BioError (Dict (Option String))) (c : Call),
      c ∈ (l.foldl (job_id_step ec reg status) acc).1 →
      c ∈ acc.1 ∨ ∃ pid, pid ∈ l ∧
        isActiveStatus ((dictLookup status pid).bind fun m => dictLookup m "Status") = true ∧
        c ∈ (get_experiment_info ec reg pid).1 := by
  intro l
  induction l with
  | nil =>
    intro acc c h
    exact Or.inl h
  | cons q rest ih =>
    intro acc c h
    rw [List.foldl_cons] at h
    rcases ih _ c h with h1 | ⟨pid, hmem, hact, hc⟩
    · rcases acc with ⟨tr, r⟩
      rcases r with e | m0
      · exact Or.inl (by simpa [job_id_step] using h1)
      · by_cases hact :
            isActiveStatus ((dictLookup status q).bind fun mm => dictLookup mm "Status") =
              true
        · rcases hinfo : get_experiment_info ec reg q with ⟨tri, rr⟩
          rcases rr with e | t
          · rw [job_id_step_active_err ec reg status tr m0 q tri e hact hinfo] at h1
            rcases List.mem_append.mp h1 with h2 | h2
            · exact Or.inl h2
            · exact Or.inr ⟨q, List.mem_cons_self _ _, hact, by rw [hinfo]; exact h2⟩
          · obtain ⟨s, en, f, fl⟩ := t
            rw [job_id_step_active_ok ec reg status tr m0 q tri s en f fl hact hinfo] at h1
            rcases List.mem_append.mp h1 with h2 | h2
            · exact Or.inl h2
            · exact Or.inr ⟨q, List.mem_cons_self _ _, hact, by rw [hinfo]; exact h2⟩
        · have hact' :
              isActiveStatus ((dictLookup status q).bind fun mm => dictLookup mm "Status") =
                false := by
            simpa using hact
          rw [job_id_step_inactive ec reg status tr m0 q hact'] at h1
          exact Or.inl h1
    · exact Or.inr ⟨pid, List.mem_cons_of_mem _ hmem, hact, hc⟩

theorem string_join_cons (c : String) (l : List String) :
    String.join (c :: l) = c ++ String.join l := by
  rw [String.join_eq (c :: l), String.join_eq l]
  cases c with
  | mk data =>
    rw [show String.mk data ++ String.mk ((l.map String.data).flatten) =
      String.mk (data ++ (l.map String.data).flatten) from rfl]
    simp

/-- C1: the claim says a device ordinal reporting success with serial
number 0 contributes one synthetic offline Pipeline per reported channel
slot.  On the test fixture (ordinal 2 reports `(0, (0, 0, 0), 1)`), the code
instead logs a warning and skips the ordinal: the registry holds exactly
the 15 online channels of devices 0 and 1, contains no entry at device
index 2 or with serial number 0, and the Pipeline record has no `is_online`
field at all. -/
theorem c1_serial_zero_device_skipped :
    fakeGetDeviceSN 2 = (0, [0, 0, 0], 1) ∧
    keys fixtureRegistry =
      ["MPG2-1-1", "MPG2-1-2", "MPG2-1-3", "MPG2-1-4", "MPG2-1-5", "MPG2-1-6", "MPG2-1-7",
       "MPG2-1-8", "MPG2-1-9", "MPG2-1-10", "999-1", "999-2", "999-3", "999-4", "999-5"] ∧
    (fixtureRegistry.all fun e => e.2.device_serial_number != 0) = true ∧
    (fixtureRegistry.all fun e => e.2.device_index != 2) = true :=
  ⟨rfl, rfl, rfl, rfl⟩

/-- C2: the claim says `run_channel` on an offline pipeline fails with a
DeviceOffline error without invoking selection.  In the code the registry
never contains an offline pipeline (serial-0 devices are skipped, see C1)
and no offline check or DeviceOffline error exists: running the fixture's
offline pipeline id fails with the unknown-pipeline error instead (with no
driver call made). -/
theorem c2_run_offline_pipeline_unknown :
    dictLookup fixtureRegistry "OFFLINE-2-1" = none ∧
    run_channel fakeECLab fixtureRegistry "OFFLINE-2-1" "output.mpr" =
      ([], Except.error (BioError.unknownPipeline "OFFLINE-2-1")) :=
  ⟨rfl, rfl⟩

/-- C3: the claim says `run_channel` on a directory-shaped output path
fails with InvalidArgument before selection.  The code never inspects the
output path: for every path whatsoever (directories included) it selects
the channel, issues RunChannel on that path, and succeeds when the driver
flag is 1. -/
theorem c3_run_channel_never_checks_path (path : String) :
    run_channel fakeECLab fixtureRegistry "MPG2-1-1" path =
      ([Call.selectChannel 0 0, Call.runChannel 0 0 path], Except.ok ()) :=
  rfl

/-- C4: the claim says a non-success result flag from GetExperimentInfos
makes `get_experiment_info` raise a CommandFailed error.  The code binds
the flag and never inspects it: with the bad-channel fixture (flag 0) it
returns the normal tuple `(None, None, None, (None,) * 20)`. -/
theorem c4_experiment_info_ignores_result_flag :
    (badECLab.getExperimentInfos 0 0).result = 0 ∧
    get_experiment_info badECLab fixtureRegistry "MPG2-1-1" =
      ([Call.selectChannel 0 0, Call.getExperimentInfos 0 0],
       Except.ok (none, none, none, List.replicate 20 none)) :=
  ⟨rfl, rfl⟩

/-- C6: `load_settings` on a nonexistent settings file fails with the
file-not-found error before any hardware call: the returned call trace is
empty, so neither selection nor the driver load was invoked, for every
driver, registry and pipeline id. -/
theorem c6_load_settings_missing_file (ec : ECLab) (reg : Dict Pipeline)
    (fsExists : String → Bool) (pid path : String) (h : fsExists path = false) :
    load_settings ec reg fsExists pid path = ([], Except.error BioError.fileNotFound) := by
  simp [load_settings, h]

theorem c6_witness :
    ((fun _ : String => false) "settings.mps" = false) ∧
    load_settings fakeECLab fixtureRegistry (fun _ => false) "MPG2-1-1" "settings.mps" =
      ([], Except.error BioError.fileNotFound) :=
  ⟨rfl,
   c6_load_settings_missing_file fakeECLab fixtureRegistry (fun _ => false) "MPG2-1-1"
     "settings.mps" rfl⟩

/-- C8 counterexample: the daemon's per-connection handler does not read to
EOF — it issues a single `recv`, so a request arriving in two chunks is
seen truncated to its first chunk, unlike the EOF-loop `recv_all` (used
only by the relay client), which reassembles the full request. -/
theorem c8_counterexample :
    receive_command_read ["biologic st", "atus MPG2-1-1"] = "biologic st" ∧
    recv_all ["biologic st", "atus MPG2-1-1"] = "biologic status MPG2-1-1" ∧
    receive_command_read ["biologic st", "atus MPG2-1-1"] ≠
      recv_all ["biologic st", "atus MPG2-1-1"] := by
  refine ⟨rfl, rfl, ?_⟩
  decide

/-- C8 amended: the EOF-framed full read holds for `recv_all` (the reader
the relay client uses): until the peer closes its write side, every chunk
is accumulated, so the result is the concatenation of all chunks; the
daemon's handler instead performs one single `recv`. -/
theorem c8_amended_recv_all_reads_to_eof (chunks : List String) (h : "" ∉ chunks) :
    recv_all chunks = String.join chunks ∧
    receive_command_read chunks = chunks.headD "" := by
  refine ⟨?_, rfl⟩
  induction chunks with
  | nil => rfl
  | cons c rest ih =>
    have hc : ¬c = "" := fun hcc => h (by simp [hcc])
    have hrest : "" ∉ rest := fun hm => h (List.mem_cons_of_mem _ hm)
    rw [show recv_all (c :: rest) = c ++ recv_all rest by simp [recv_all, hc]]
    rw [ih hrest, string_join_cons]

theorem c8_witness :
    ("" ∉ ["biologic st", "atus MPG2-1-1"]) ∧
    recv_all ["biologic st", "atus MPG2-1-1"] =
      String.join ["biologic st", "atus MPG2-1-1"] :=
  ⟨by decide,
   (c8_amended_recv_all_reads_to_eof ["biologic st", "atus MPG2-1-1"] (by decide)).1⟩

/-- C9 counterexample: with a configuration mapping the two distinct
serials 1 and 2 to the same name "X", two devices each reporting one
channel are enumerated, yet the registry holds a single entry — the second
device's channel overwrote the first under the colliding pipeline id
"X-1" — so the registry does not contain one entry per enumerated physical
channel. -/
theorem c9_counterexample :
    (fun i => if i = 0 then ((1 : Int), [(100 : Int)], (1 : Int))
      else if i = 1 then (2, [200], 1) else (0, [], 0)) 0 = (1, [100], 1) ∧
    (fun i => if i = 0 then ((1 : Int), [(100 : Int)], (1 : Int))
      else if i = 1 then (2, [200], 1) else (0, [], 0)) 1 = (2, [200], 1) ∧
    get_all_pipelines [(1, "X"), (2, "X")]
      (fun i => if i = 0 then ((1 : Int), [(100 : Int)], (1 : Int))
        else if i = 1 then (2, [200], 1) else (0, [], 0)) =
      [("X-1",
        { device_name := "X", device_index := 1, device_serial_number := 2,
          channel_index := 0, channel_serial_number := 200 })] :=
  ⟨rfl, rfl, rfl⟩

/-- C9 amended: for every configuration and device enumeration the built
registry has pairwise-distinct pipeline ids (each id maps to exactly one
Pipeline) and pairwise-distinct `(device_index, channel_index)` pairs; but
when two distinct serials resolve to the same device name, colliding ids
overwrite, so the registry can hold fewer entries than enumerated physical
channels. -/
theorem c9_amended_registry_uniqueness (cfg : List (Int × String))
    (g : Nat → Int × List Int × Int) :
    (keys (get_all_pipelines cfg g)).Nodup ∧ (pairs (get_all_pipelines cfg g)).Nodup :=
  ⟨registry_keys_nodup cfg g, registry_pairs_nodup cfg g⟩

/-- C7: on an explicit nonempty id list, `get_status` silently drops the
ids absent from the registry: the result's key set is exactly the requested
ids intersected with the registry's keys, and in the presence of at least
one unknown id it is strictly smaller than the requested id set. -/
theorem c7_unknown_ids_dropped (ec : ECLab) (tables : StatusTables) (reg : Dict Pipeline)
    (ids : List String) (pid0 : String)
    (hne : ids ≠ []) (hmem : pid0 ∈ ids) (hunk : pid0 ∉ keys reg) :
    (keys (get_status ec tables reg (some ids)).2).toFinset =
      ids.toFinset ∩ (keys reg).toFinset ∧
    (keys (get_status ec tables reg (some ids)).2).toFinset.card < ids.toFinset.card := by
  have hkeys : ∀ q, q ∈ keys (get_status ec tables reg (some ids)).2 ↔
      q ∈ ids ∧ q ∈ keys reg := by
    intro q
    rw [mem_keys_get_status, mem_keys_select_some reg ids hne]
  have hset : (keys (get_status ec tables reg (some ids)).2).toFinset =
      ids.toFinset ∩ (keys reg).toFinset := by
    ext q
    rw [List.mem_toFinset, hkeys q, Finset.mem_inter, List.mem_toFinset, List.mem_toFinset]
  refine ⟨hset, ?_⟩
  have hss : (keys (get_status ec tables reg (some ids)).2).toFinset ⊂ ids.toFinset := by
    rw [hset, Finset.ssubset_def]
    refine ⟨Finset.inter_subset_left, fun hsub => ?_⟩
    have hin := hsub (List.mem_toFinset.mpr hmem)
    rw [Finset.mem_inter] at hin
    exact hunk (List.mem_toFinset.mp hin.2)
  exact Finset.card_lt_card hss

theorem c7_witness :
    (["MPG2-1-1", "doesntexist"] ≠ ([] : List String)) ∧
    ("doesntexist" ∈ ["MPG2-1-1", "doesntexist"]) ∧
    ("doesntexist" ∉ keys fixtureRegistry) ∧
    (keys (get_status fakeECLab fixtureTables fixtureRegistry
        (some ["MPG2-1-1", "doesntexist"])).2).toFinset =
      (["MPG2-1-1", "doesntexist"] : List String).toFinset ∩
        (keys fixtureRegistry).toFinset ∧
    (keys (get_status fakeECLab fixtureTables fixtureRegistry
        (some ["MPG2-1-1", "doesntexist"])).2).toFinset.card <
      (["MPG2-1-1", "doesntexist"] : List String).toFinset.card := by
  have h := c7_unknown_ids_dropped fakeECLab fixtureTables fixtureRegistry
    ["MPG2-1-1", "doesntexist"] "doesntexist" (by decide) (by decide) (by decide)
  exact ⟨by decide, by decide, by decide, h.1, h.2⟩

/-- C10: passing an explicitly empty id list to `get_status` or
`get_job_id` behaves identically to passing `None`: both select the whole
registry, the status mapping has a key for every registry pipeline, and on
success the job-id mapping likewise covers every registry pipeline. -/
theorem c10_empty_list_selects_all (ec : ECLab) (tables : StatusTables) (reg : Dict Pipeline)
    (pid : String) (m : Dict (Option String))
    (hok : (get_job_id ec tables reg none).2 = Except.ok m) :
    get_status ec tables reg (some []) = get_status ec tables reg none ∧
    get_job_id ec tables reg (some []) = get_job_id ec tables reg none ∧
    (pid ∈ keys (get_status ec tables reg none).2 ↔ pid ∈ keys reg) ∧
    (pid ∈ keys m ↔ pid ∈ keys reg) := by
  refine ⟨rfl, rfl, ?_, ?_⟩
  · rw [mem_keys_get_status]
    exact Iff.rfl
  · have hok' :
        ((keys reg).foldl
          (job_id_step ec reg (get_status ec tables reg (some (keys reg))).2)
          ((get_status ec tables reg (some (keys reg))).1, Except.ok [])).2 =
          Except.ok m := hok
    have h := job_id_foldl_ok ec reg (get_status ec tables reg (some (keys reg))).2
      (keys reg) (get_status ec tables reg (some (keys reg))).1 [] m hok' pid
    rw [← dictLookup_isSome_iff, h]
    by_cases hmem : pid ∈ keys reg
    · simp [hmem]
    · simp [hmem, dictLookup]

theorem c10_witness :
    ((get_job_id idleECLab fixtureTables fixtureRegistry none).2 =
      Except.ok
        [("MPG2-1-1", none), ("MPG2-1-2", none), ("MPG2-1-3", none), ("MPG2-1-4", none),
         ("MPG2-1-5", none), ("MPG2-1-6", none), ("MPG2-1-7", none), ("MPG2-1-8", none),
         ("MPG2-1-9", none), ("MPG2-1-10", none), ("999-1", none), ("999-2", none),
         ("999-3", none), ("999-4", none), ("999-5", none)]) ∧
    get_status idleECLab fixtureTables fixtureRegistry (some []) =
      get_status idleECLab fixtureTables fixtureRegistry none ∧
    get_job_id idleECLab fixtureTables fixtureRegistry (some []) =
      get_job_id idleECLab fixtureTables fixtureRegistry none ∧
    ("999-5" ∈ keys (get_status idleECLab fixtureTables fixtureRegistry none).2 ↔
      "999-5" ∈ keys fixtureRegistry) ∧
    ("999-5" ∈ keys
        [("MPG2-1-1", (none : Option String)), ("MPG2-1-2", none), ("MPG2-1-3", none),
         ("MPG2-1-4", none), ("MPG2-1-5", none), ("MPG2-1-6", none), ("MPG2-1-7", none),
         ("MPG2-1-8", none), ("MPG2-1-9", none), ("MPG2-1-10", none), ("999-1", none),
         ("999-2", none), ("999-3", none), ("999-4", none), ("999-5", none)] ↔
      "999-5" ∈ keys fixtureRegistry) := by
  have h := c10_empty_list_selects_all idleECLab fixtureTables fixtureRegistry "999-5"
    [("MPG2-1-1", none), ("MPG2-1-2", none), ("MPG2-1-3", none), ("MPG2-1-4", none),
     ("MPG2-1-5", none), ("MPG2-1-6", none), ("MPG2-1-7", none), ("MPG2-1-8", none),
     ("MPG2-1-9", none), ("MPG2-1-10", none), ("999-1", none), ("999-2", none),
     ("999-3", none), ("999-4", none), ("999-5", none)] rfl
  exact ⟨rfl, h.1, h.2.1, h.2.2.1, h.2.2.2⟩

/-- C5: `get_job_id` is two-phase.  (1) Every GetExperimentInfos driver
call in its trace belongs to a processed pipeline whose decoded Status is
in the active set {Run, Pause, Sync, Pause_rec}; (2) for a processed
pipeline whose decoded Status is not in the active set, no
GetExperimentInfos call at its coordinates is ever made; (3) on success the
job id of a processed pipeline is the second-to-last backslash-segment of
the experiment folder when the start timestamp is present and the end
timestamp absent — and `none` otherwise, in particular for every inactive
pipeline. -/
theorem c5_job_id_two_phase (ec : ECLab) (tables : StatusTables) (reg : Dict Pipeline)
    (ids : Option (List String)) (d c : Nat) (pid : String) (pd : Pipeline)
    (m : Dict (Option String)) (hpairs : (pairs reg).Nodup) :
    (Call.getExperimentInfos d c ∈ (get_job_id ec tables reg ids).1 →
      ∃ pid2 pd2, pid2 ∈ resolved_pids reg ids ∧ dictLookup reg pid2 = some pd2 ∧
        pd2.device_index = d ∧ pd2.channel_index = c ∧
        isActiveStatus
          (pipeline_status_value ec tables reg (resolved_pids reg ids) pid2) = true) ∧
    (pid ∈ resolved_pids reg ids → dictLookup reg pid = some pd →
      isActiveStatus (pipeline_status_value ec tables reg (resolved_pids reg ids) pid) =
        false →
      Call.getExperimentInfos pd.device_index pd.channel_index ∉
        (get_job_id ec tables reg ids).1) ∧
    ((get_job_id ec tables reg ids).2 = Except.ok m → pid ∈ resolved_pids reg ids →
      dictLookup reg pid = some pd →
      dictLookup m pid = some (
        if isActiveStatus (pipeline_status_value ec tables reg (resolved_pids reg ids) pid)
        then
          if (ec.getExperimentInfos pd.device_index pd.channel_index).start.isSome &&
              (ec.getExperimentInfos pd.device_index pd.channel_index).endTime.isNone then
            some (second_last_segment
              ((ec.getExperimentInfos pd.device_index pd.channel_index).folder.getD ""))
          else none
        else none)) := by
  have hA : ∀ d2 c2, Call.getExperimentInfos d2 c2 ∈ (get_job_id ec tables reg ids).1 →
      ∃ pid2 pd2, pid2 ∈ resolved_pids reg ids ∧ dictLookup reg pid2 = some pd2 ∧
        pd2.device_index = d2 ∧ pd2.channel_index = c2 ∧
        isActiveStatus
          (pipeline_status_value ec tables reg (resolved_pids reg ids) pid2) = true := by
    intro d2 c2 hmem
    have hmem' : Call.getExperimentInfos d2 c2 ∈
        ((resolved_pids reg ids).foldl
          (job_id_step ec reg (get_status ec tables reg (some (resolved_pids reg ids))).2)
          ((get_status ec tables reg (some (resolved_pids reg ids))).1, Except.ok [])).1 :=
      hmem
    rcases job_id_foldl_trace ec reg
        (get_status ec tables reg (some (resolved_pids reg ids))).2
        (resolved_pids reg ids) _ _ hmem' with h1 | ⟨pid2, hp2, hact, hc2⟩
    · exact absurd h1
        (info_not_mem_get_status_trace ec tables reg (some (resolved_pids reg ids)) d2 c2)
    · rcases get_experiment_info_trace ec reg pid2 _ hc2 with ⟨pd2, hpd2, hcall | hcall⟩
      · exact absurd hcall (by simp)
      · injection hcall with h1 h2
        exact ⟨pid2, pd2, hp2, hpd2, h1.symm, h2.symm, hact⟩
  refine ⟨hA d c, ?_, ?_⟩
  · intro hpmem hplk hinact hmem
    rcases hA pd.device_index pd.channel_index hmem with
      ⟨pid2, pd2, hp2, hpd2, hd, hc2, hact⟩
    by_cases heq : pid2 = pid
    · rw [heq] at hact
      rw [hact] at hinact
      exact Bool.noConfusion hinact
    · have hne := lookup_pair_injective reg hpairs pid2 pid pd2 pd hpd2 hplk heq
      apply hne
      show (pd2.device_index, pd2.channel_index) = (pd.device_index, pd.channel_index)
      rw [hd, hc2]
  · intro hok hpmem hplk
    have hok' : ((resolved_pids reg ids).foldl
        (job_id_step ec reg (get_status ec tables reg (some (resolved_pids reg ids))).2)
        ((get_status ec tables reg (some (resolved_pids reg ids))).1, Except.ok [])).2 =
        Except.ok m := hok
    have h := job_id_foldl_ok ec reg
      (get_status ec tables reg (some (resolved_pids reg ids))).2
      (resolved_pids reg ids) _ [] m hok' pid
    rw [h, if_pos hpmem]
    simp only [job_id_value, hplk, pipeline_status_value]

/-- The registry entry the fixture stores for pipeline "MPG2-1-1". -/
def pipelineMPG1 : Pipeline :=
  { device_name := "MPG2-1", device_index := 0, device_serial_number := 123,
    channel_index := 0, channel_serial_number := 6001 }

theorem c5_witness :
    (Call.getExperimentInfos 0 0 ∉
      (get_job_id idleECLab fixtureTables fixtureRegistry (some ["MPG2-1-1"])).1) ∧
    dictLookup
        [("MPG2-1-1",
          some (second_last_segment "some\\folder\\location\\thisisthejob\\"))]
        "MPG2-1-1" =
      some (
        if isActiveStatus (pipeline_status_value fakeECLab fixtureTables fixtureRegistry
            (resolved_pids fixtureRegistry (some ["MPG2-1-1"])) "MPG2-1-1")
        then
          if (fakeECLab.getExperimentInfos 0 0).start.isSome &&
              (fakeECLab.getExperimentInfos 0 0).endTime.isNone then
            some (second_last_segment ((fakeECLab.getExperimentInfos 0 0).folder.getD ""))
          else none
        else none) :=
  ⟨(c5_job_id_two_phase idleECLab fixtureTables fixtureRegistry (some ["MPG2-1-1"]) 0 0
      "MPG2-1-1" pipelineMPG1 [] (by decide)).2.1 (by decide) rfl rfl,
   (c5_job_id_two_phase fakeECLab fixtureTables fixtureRegistry (some ["MPG2-1-1"]) 0 0
      "MPG2-1-1" pipelineMPG1
      [("MPG2-1-1", some (second_last_segment "some\\folder\\location\\thisisthejob\\"))]
      (by decide)).2.2 (by rfl) (by decide) rfl⟩

end AuroraBiologic
